import Mathlib

/-!
# Verification of the KVLCC2 / HHOS simulation core

Shallow embedding of the MMG vessel-dynamics model (`MMG_KVLCC2.py`),
the waypoint-following logic and LiDAR depth sensor of the HHOS
environment (`HHOS_Env.py`), together with theorems settling the frozen
claims about them.

Floating-point values of the source are modelled as real numbers;
fallible operations (the action assertion of `_control`) return `Option`.
-/

noncomputable section

namespace KVLCC2

/-! ## Physical constants (the `kvlcc2_full` dictionary of `MMG_KVLCC2.__init__`) -/

def C_b : ℝ := 0.810
def Lpp : ℝ := 320.0
def B : ℝ := 58
def m : ℝ := 312600000
def w_P0 : ℝ := 0.35
def x_G : ℝ := 11.2
def x_P : ℝ := -160.0
def D_p : ℝ := 9.86
def k_0 : ℝ := 0.2931
def k_1 : ℝ := -0.2753
def k_2 : ℝ := -0.1359
def C_1 : ℝ := 2.0
def C_2_plus : ℝ := 1.6
def C_2_minus : ℝ := 1.1
def l_R : ℝ := -0.710
def gamma_R_plus : ℝ := 0.640
def gamma_R_minus : ℝ := 0.395
def eta_param : ℝ := 0.626
def kappa : ℝ := 0.50
def A_R : ℝ := 112.5
def epsilon : ℝ := 1.09
def f_alpha : ℝ := 2.747
def rho : ℝ := 1000
def t_R : ℝ := 0.387
def t_P : ℝ := 0.220
def x_H_dash : ℝ := -0.464
def d : ℝ := 20.8
def m_x_dash : ℝ := 0.022
def m_y_dash : ℝ := 0.223
def R_0_dash : ℝ := 0.022
def X_vv_dash : ℝ := -0.040
def X_vr_dash : ℝ := 0.002
def X_rr_dash : ℝ := 0.011
def X_vvvv_dash : ℝ := 0.771
def Y_v_dash : ℝ := -0.315
def Y_r_dash : ℝ := 0.083
def Y_vvv_dash : ℝ := -1.607
def Y_vvr_dash : ℝ := 0.379
def Y_vrr_dash : ℝ := -0.391
def Y_rrr_dash : ℝ := 0.008
def N_v_dash : ℝ := -0.137
def N_r_dash : ℝ := -0.049
def N_vvv_dash : ℝ := -0.030
def N_vvr_dash : ℝ := -0.294
def N_vrr_dash : ℝ := 0.055
def N_rrr_dash : ℝ := -0.013
def I_zG : ℝ := 2e12
def J_z_dash : ℝ := 0.011
def a_H : ℝ := 0.312

/-- Propeller revolutions fixed in `__init__` (`self.nps = 4.0`). -/
def nps_init : ℝ := 4.0

/-! ## Dynamics (`_mmg_dynamics`)

The four-quadrant arctangent `math.atan2` of Python, written out as the
standard piecewise definition over the reals. -/

def atan2 (y x : ℝ) : ℝ :=
  if 0 < x then Real.arctan (y / x)
  else if x < 0 then
    (if 0 ≤ y then Real.arctan (y / x) + Real.pi else Real.arctan (y / x) - Real.pi)
  else
    (if 0 < y then Real.pi / 2 else if y < 0 then -(Real.pi / 2) else 0)

/-- `_vm_from_v_r`: lateral velocity at midship, `v - x_G * r`. -/
def vm_from_v_r (v r : ℝ) : ℝ := v - x_G * r

/-- Overall speed of the vessel, `U = sqrt(u**2 + vm**2)`. -/
def U_of (u vm : ℝ) : ℝ := Real.sqrt (u ^ 2 + vm ^ 2)

/-- The `U == 0.0` branch of `_mmg_dynamics`: drift angle `beta`,
non-dimensionalized lateral velocity `v_dash` and non-dimensionalized
yaw rate `r_dash`.  When `U = 0` all three are set to `0` by the
explicit branch; only the other branch divides by `U`. -/
def driftTriple (u vm r : ℝ) : ℝ × ℝ × ℝ :=
  if U_of u vm = 0 then (0, 0, 0)
  else (atan2 (-vm) u, vm / U_of u vm, r * Lpp / U_of u vm)

def beta_of (u vm r : ℝ) : ℝ := (driftTriple u vm r).1
def v_dash_of (u vm r : ℝ) : ℝ := (driftTriple u vm r).2.1
def r_dash_of (u vm r : ℝ) : ℝ := (driftTriple u vm r).2.2

/-- `beta_P = beta - (x_P/Lpp) * r_dash`. -/
def beta_P_of (u vm r : ℝ) : ℝ := beta_of u vm r - (x_P / Lpp) * r_dash_of u vm r

/-- `C_2 = C_2_plus if beta_P >= 0 else C_2_minus` (the keys are present
in `kvlcc2_full`, so the dictionary-lookup branch is always taken). -/
def C_2_of (u vm r : ℝ) : ℝ := if 0 ≤ beta_P_of u vm r then C_2_plus else C_2_minus

/-- Wake fraction `w_P` at the propeller in maneuvering motion. -/
def w_P_of (u vm r : ℝ) : ℝ :=
  -(1 + (1 - Real.exp (-C_1 * |beta_P_of u vm r|) * (C_2_of u vm r - 1)) * (1 - w_P0)) + 1

/-- Propeller advance ratio `J`; `0` when `nps = 0` (explicit branch). -/
def J_of (u vm r nps : ℝ) : ℝ :=
  if nps = 0 then 0 else (1 - w_P_of u vm r) * u / (nps * D_p)

/-- Open-water thrust coefficient `K_T = k_0 + k_1*J + k_2*J**2`
(the keys `k_0,k_1,k_2` are present, so this branch is always taken). -/
def K_T_of (u vm r nps : ℝ) : ℝ :=
  k_0 + k_1 * J_of u vm r nps + k_2 * (J_of u vm r nps) ^ 2

/-- Effective inflow angle to rudder `beta_R = beta - l_R * r_dash`. -/
def beta_R_of (u vm r : ℝ) : ℝ := beta_of u vm r - l_R * r_dash_of u vm r

/-- Flow straightening coefficient (`gamma_R` is `None` in the parameter
set, so the sign branch on `beta_R` is always taken). -/
def gamma_R_of (u vm r : ℝ) : ℝ :=
  if beta_R_of u vm r < 0 then gamma_R_minus else gamma_R_plus

/-- Lateral inflow velocity component to rudder `v_R`. -/
def v_R_of (u vm r : ℝ) : ℝ := U_of u vm * gamma_R_of u vm r * beta_R_of u vm r

/-- Longitudinal inflow velocity component to rudder `u_R`, with the
thrust-derived closed form when `J = 0` (explicit branch). -/
def u_R_of (u vm r nps : ℝ) : ℝ :=
  if J_of u vm r nps = 0 then
    Real.sqrt (eta_param * (kappa * epsilon * 8.0 * k_0 * nps ^ 2 * D_p ^ 4 / Real.pi) ^ 2)
  else
    u * (1 - w_P_of u vm r) * epsilon * Real.sqrt (
      eta_param * (1.0 + kappa * (
        Real.sqrt (1.0 + 8.0 * K_T_of u vm r nps / (Real.pi * (J_of u vm r nps) ^ 2)) - 1)) ^ 2
      + (1 - eta_param))

/-- Rudder inflow velocity `U_R = sqrt(u_R**2 + v_R**2)`. -/
def U_R_of (u vm r nps : ℝ) : ℝ :=
  Real.sqrt (u_R_of u vm r nps ^ 2 + v_R_of u vm r ^ 2)

/-- Rudder inflow angle `alpha_R = rud_angle - atan2(v_R, u_R)`. -/
def alpha_R_of (rud u vm r nps : ℝ) : ℝ :=
  rud - atan2 (v_R_of u vm r) (u_R_of u vm r nps)

/-- Normal force on rudder (`A_R` is not `None`, so the movable-area
branch is always taken). -/
def F_N_of (rud u vm r nps : ℝ) : ℝ :=
  0.5 * A_R * rho * f_alpha * (U_R_of u vm r nps) ^ 2 * Real.sin (alpha_R_of rud u vm r nps)

/-- Longitudinal surge force on the hull `X_H`. -/
def X_H_of (u vm r : ℝ) : ℝ :=
  0.5 * rho * Lpp * d * (U_of u vm) ^ 2 * (
    - R_0_dash
    + X_vv_dash * (v_dash_of u vm r) ^ 2
    + X_vr_dash * v_dash_of u vm r * r_dash_of u vm r
    + X_rr_dash * (r_dash_of u vm r) ^ 2
    + X_vvvv_dash * (v_dash_of u vm r) ^ 4)

/-- Longitudinal surge force by steering `X_R`. -/
def X_R_of (rud u vm r nps : ℝ) : ℝ :=
  -(1 - t_R) * F_N_of rud u vm r nps * Real.sin rud

/-- Longitudinal surge force due to propeller `X_P`. -/
def X_P_of (u vm r nps : ℝ) : ℝ :=
  (1 - t_P) * rho * K_T_of u vm r nps * nps ^ 2 * D_p ^ 4

/-- Lateral force on the hull `Y_H`. -/
def Y_H_of (u vm r : ℝ) : ℝ :=
  0.5 * rho * Lpp * d * (U_of u vm) ^ 2 * (
    Y_v_dash * v_dash_of u vm r
    + Y_r_dash * r_dash_of u vm r
    + Y_vvv_dash * (v_dash_of u vm r) ^ 3
    + Y_vvr_dash * (v_dash_of u vm r) ^ 2 * r_dash_of u vm r
    + Y_vrr_dash * v_dash_of u vm r * (r_dash_of u vm r) ^ 2
    + Y_rrr_dash * (r_dash_of u vm r) ^ 3)

/-- Lateral force by steering `Y_R`. -/
def Y_R_of (rud u vm r nps : ℝ) : ℝ :=
  -(1 + a_H) * F_N_of rud u vm r nps * Real.cos rud

/-- Yaw moment on the hull `N_H`. -/
def N_H_of (u vm r : ℝ) : ℝ :=
  0.5 * rho * Lpp ^ 2 * d * (U_of u vm) ^ 2 * (
    N_v_dash * v_dash_of u vm r
    + N_r_dash * r_dash_of u vm r
    + N_vvv_dash * (v_dash_of u vm r) ^ 3
    + N_vvr_dash * (v_dash_of u vm r) ^ 2 * r_dash_of u vm r
    + N_vrr_dash * v_dash_of u vm r * (r_dash_of u vm r) ^ 2
    + N_rrr_dash * (r_dash_of u vm r) ^ 3)

/-- Yaw moment by steering `N_R` (with `x_H = x_H_dash * Lpp`). -/
def N_R_of (rud u vm r nps : ℝ) : ℝ :=
  -((-1 / 2 : ℝ) + a_H * (x_H_dash * Lpp)) * F_N_of rud u vm r nps * Real.cos rud

/-- Current-induced forces `(X_C, Y_C, N_C)` of `_mmg_dynamics`.
The current speed is `Option`-valued, mirroring the Python guard
`fl_vel is not None and fl_vel != 0.`; both `None` and `0` take the
zero-force branch.  Uses the empirical polynomials `_C_X`, `_C_Y`,
`_C_N` in the relative inflow angle. -/
def C_X_poly (g : ℝ) : ℝ :=
  -0.0665 * g ^ 5 + 0.5228 * g ^ 4 - 1.4365 * g ^ 3 + 1.6024 * g ^ 2 - 0.2967 * g - 0.4691

def C_Y_poly (g : ℝ) : ℝ :=
  0.05930686 * g ^ 4 - 0.37522028 * g ^ 3 + 0.46812233 * g ^ 2 + 0.39114522 * g - 0.00273578

def C_N_poly (g : ℝ) : ℝ :=
  -0.0140 * g ^ 5 + 0.1131 * g ^ 4 - 0.2757 * g ^ 3 + 0.1617 * g ^ 2 + 0.0728 * g

def currentForces (fl_psi : ℝ) (fl_vel : Option ℝ) (psi u vm : ℝ) : ℝ × ℝ × ℝ :=
  match fl_vel with
  | none => (0, 0, 0)
  | some V =>
    if V ≠ 0 then
      let u_c := -V * Real.cos (fl_psi - psi)
      let u_rc := u - u_c
      let v_c := V * Real.sin (fl_psi - psi)
      let v_rc := vm - v_c
      let g_rc := |(-(atan2 v_rc u_rc))|
      let A_Fc := B * d * C_b
      let A_Lc := Lpp * d * C_b
      (0.5 * rho * A_Fc * C_X_poly g_rc * |u_rc| * u_rc,
       0.5 * rho * A_Lc * C_Y_poly g_rc * |v_rc| * v_rc,
       0.5 * rho * A_Lc * Lpp * C_N_poly g_rc * |v_rc| * v_rc)
    else (0, 0, 0)

/-- Added mass in x direction, `m_x = m_x_dash * (0.5 * rho * Lpp**2 * d)`. -/
def m_x_v : ℝ := m_x_dash * (0.5 * rho * Lpp ^ 2 * d)

/-- Added mass in y direction. -/
def m_y_v : ℝ := m_y_dash * (0.5 * rho * Lpp ^ 2 * d)

/-- Added moment of inertia, `J_z = J_z_dash * (0.5 * rho * Lpp**4 * d)`. -/
def J_z_v : ℝ := J_z_dash * (0.5 * rho * Lpp ^ 4 * d)

/-- The pose/velocity vector `y = [N, E, psi, u, v, r]` of `_mmg_dynamics`. -/
structure MMGState where
  N : ℝ
  E : ℝ
  psi : ℝ
  u : ℝ
  v : ℝ
  r : ℝ

/-- The derivative `[eta_dot, nu_dot]` returned by `_mmg_dynamics`. -/
structure MMGDeriv where
  dN : ℝ
  dE : ℝ
  dpsi : ℝ
  du : ℝ
  dv : ℝ
  dr : ℝ

/-- Longitudinal acceleration `d_u` of `_mmg_dynamics`. -/
def d_u_of (rud nps fl_psi : ℝ) (fl_vel : Option ℝ) (psi u v r : ℝ) : ℝ :=
  let vm := vm_from_v_r v r
  ((X_H_of u vm r + X_R_of rud u vm r nps + X_P_of u vm r nps
      + (currentForces fl_psi fl_vel psi u vm).1)
    + (m + m_y_v) * v * r + x_G * m * r ^ 2) / (m + m_x_v)

/-- Lateral acceleration `d_v` of `_mmg_dynamics`, with
`f = I_zG + J_z + x_G**2 * m`. -/
def d_v_of (rud nps fl_psi : ℝ) (fl_vel : Option ℝ) (psi u v r : ℝ) : ℝ :=
  let vm := vm_from_v_r v r
  let f := I_zG + J_z_v + x_G ^ 2 * m
  let NS := N_H_of u vm r + N_R_of rud u vm r nps + (currentForces fl_psi fl_vel psi u vm).2.2
  ((Y_H_of u vm r + Y_R_of rud u vm r nps + (currentForces fl_psi fl_vel psi u vm).2.1)
      - (m + m_x_v) * u * r - (x_G * m * NS) / f + (x_G ^ 2 * m ^ 2 * u * r) / f)
    / ((m + m_y_v) - (x_G ^ 2 * m ^ 2) / f)

/-- Yaw-rate acceleration `d_r` of `_mmg_dynamics`. -/
def d_r_of (rud nps fl_psi : ℝ) (fl_vel : Option ℝ) (psi u v r : ℝ) : ℝ :=
  let vm := vm_from_v_r v r
  let NS := N_H_of u vm r + N_R_of rud u vm r nps + (currentForces fl_psi fl_vel psi u vm).2.2
  (NS - (x_G * m * d_v_of rud nps fl_psi fl_vel psi u v r + x_G * m * u * r))
    / (I_zG + J_z_v + x_G ^ 2 * m)

/-- `_mmg_dynamics`: the full system of ODEs.  `eta_dot` is the rotation
matrix `T(psi)` applied to `nu = (u, v, r)`. -/
def mmg_dynamics (rud nps fl_psi : ℝ) (fl_vel : Option ℝ) (s : MMGState) : MMGDeriv :=
  { dN := Real.cos s.psi * s.u - Real.sin s.psi * s.v
    dE := Real.sin s.psi * s.u + Real.cos s.psi * s.v
    dpsi := s.r
    du := d_u_of rud nps fl_psi fl_vel s.psi s.u s.v s.r
    dv := d_v_of rud nps fl_psi fl_vel s.psi s.u s.v s.r
    dr := d_r_of rud nps fl_psi fl_vel s.psi s.u s.v s.r }

/-- The forcing arguments `_upd_dynamics` passes to the integrator:
`args = (0.0, 0.0)`, i.e. `fl_psi = 0` and `fl_vel = 0` — hard-coded,
independent of any environment-sampled current. -/
def upd_dynamics_forcing : ℝ × Option ℝ := (0, some 0)

/-! ## Rudder control (`_control` and the rudder settings of `__init__`) -/

/-- `np.clip(x, lo, hi)`. -/
def clip (x lo hi : ℝ) : ℝ := min (max x lo) hi

/-- Degree-to-radian conversion (`dtr` of `FossenFnc`, an external
collaborator of the source file). -/
def dtr (x : ℝ) : ℝ := x * Real.pi / 180

/-- Simulation time interval fixed by `HHOS_Env.__init__` (`delta_t = 3.0`). -/
def delta_t : ℝ := 3.0

/-- `self.rud_angle_max = dtr(10)`. -/
def rud_angle_max : ℝ := dtr 10

/-- `self.rud_angle_inc = dtr(2.5) * self.delta_t`. -/
def rud_angle_inc : ℝ := dtr 2.5 * delta_t

/-- `_control`: the assertion `a in range(3)` fails for any other action
(modelled by `none`; the rudder angle is mutated only after the
assertion, so on failure it is unchanged).  Actions `0/1/2` hold,
increase, decrease the rudder angle, which is then clipped to
`[-rud_angle_max, rud_angle_max]`. -/
def control (a : ℤ) (rud : ℝ) : Option ℝ :=
  if a = 0 then some (clip rud (-rud_angle_max) rud_angle_max)
  else if a = 1 then some (clip (rud + rud_angle_inc) (-rud_angle_max) rud_angle_max)
  else if a = 2 then some (clip (rud - rud_angle_inc) (-rud_angle_max) rud_angle_max)
  else none

/-- Sequential application of `_control` to a list of actions; a failed
assertion aborts the whole run. -/
def control_seq : List ℤ → ℝ → Option ℝ
  | [], rud => some rud
  | a :: rest, rud => (control a rud).bind (control_seq rest)

end KVLCC2

namespace HHOS

/-! ## Waypoint following (`_update_wps` of `HHOS_Env`)

Coordinates are modelled as rationals (the claims here are
order-and-field facts, decidable on concrete inputs). -/

/-- The waypoint-pair state `(wp1_idx, wp1_N, wp1_E, wp2_idx, wp2_N, wp2_E)`
kept by `HHOS_Env`. -/
structure WPState where
  wp1_idx : ℕ
  wp1_N : ℚ
  wp1_E : ℚ
  wp2_idx : ℕ
  wp2_N : ℚ
  wp2_E : ℚ
  deriving DecidableEq

/-- Modelled from the spec: `switch_wp` of `HHOS_Fnc.py` is not under
`src/` (only its caller `_update_wps` is).  Per the spec it returns true
iff the along-track projection of the position onto the segment
`wp1 → wp2` strictly exceeds the segment length (the perpendicular foot
lies beyond `wp2`); exact equality is "not yet passed".  Written
without the square root: `⟪a - wp1, wp2 - wp1⟫ > ‖wp2 - wp1‖²`, which
is equivalent for a non-degenerate segment and yields `false` for a
zero-length one. -/
def switch_wp (wp1_N wp1_E wp2_N wp2_E a_N a_E : ℚ) : Bool :=
  (a_N - wp1_N) * (wp2_N - wp1_N) + (a_E - wp1_E) * (wp2_E - wp1_E)
    > (wp2_N - wp1_N) ^ 2 + (wp2_E - wp1_E) ^ 2

/-- `_update_wps`: advance `wp1 ← wp2` and `wp2 ←` next `DesiredPath`
entry iff `switch_wp` holds and `wp2` is not the last waypoint
(`wp2_idx != n_wps - 1`, with `n_wps` the path length). -/
def update_wps (pathN pathE : List ℚ) (a_N a_E : ℚ) (s : WPState) : WPState :=
  if switch_wp s.wp1_N s.wp1_E s.wp2_N s.wp2_E a_N a_E ∧ s.wp2_idx ≠ pathN.length - 1 then
    { wp1_idx := s.wp1_idx + 1
      wp1_N := s.wp2_N
      wp1_E := s.wp2_E
      wp2_idx := s.wp2_idx + 1
      wp2_N := pathN.getD (s.wp2_idx + 1) 0
      wp2_E := pathE.getD (s.wp2_idx + 1) 0 }
  else s

/-! ## LiDAR depth sensor (`_sense_LiDAR`, `_get_closeness_from_lidar`) -/

/-- `self.lidar_range = NM_to_meter(1.0)`: one nautical mile in meters. -/
def lidar_range : ℝ := 1852

/-- `self.lidar_n_beams = 25`. -/
def lidar_n_beams : ℕ := 25

/-- `self.sense_depth = 15`: water depth at which the LiDAR recognizes
an obstacle. -/
def sense_depth : ℝ := 15

/-- `np.linspace(0, 2*pi, 25, endpoint=False)`: the beam angles. -/
def lidar_beam_angles : List ℝ :=
  (List.range lidar_n_beams).map (fun k => 2 * Real.pi * k / 25)

/-- `np.linspace(0, lidar_range, 26, endpoint=True)[1:]`: the ordered
increasing sample distances along a beam, ending exactly at `lidar_range`. -/
def d_dots_per_beam : List ℝ :=
  (List.range lidar_n_beams).map (fun k => lidar_range * (k + 1) / 25)

/-- Modelled from the spec: `angle_to_2pi` of `VesselFnc.py` is not
under `src/`; the spec states headings/angles are normalized into
`[0, 2π)`. -/
def angle_to_2pi (a : ℝ) : ℝ := a - 2 * Real.pi * ⌊a / (2 * Real.pi)⌋

/-- One beam of `_sense_LiDAR`: march over the sample distances and
return the first at which the queried depth is `≤ sense_depth`,
else the maximum range (the output is initialized to `lidar_range`).
`depthq` abstracts the external collaborator composition
`_depth_at_latlon ∘ to_latlon ∘ (polar offset from midship)`
(FieldSampler and CoordinateTransform, not under `src/`): it maps the
world angle of the beam and the sample distance to the bilinear-interpolated
water depth at the sample point. -/
def sense_beam (depthq : ℝ → ℝ → ℝ) (ang : ℝ) : ℝ :=
  match d_dots_per_beam.find? (fun dist => depthq ang dist ≤ sense_depth) with
  | some dist => dist
  | none => lidar_range

/-- `_sense_LiDAR`: the per-beam distances, beam `k` at world angle
`angle_to_2pi(beam_angle_k + heading)`. -/
def sense_LiDAR (depthq : ℝ → ℝ → ℝ) (head : ℝ) : List ℝ :=
  lidar_beam_angles.map (fun b => sense_beam depthq (angle_to_2pi (b + head)))

/-- `_get_closeness_from_lidar` for one distance:
`clip(1 - log(d+1)/log(lidar_range+1), 0, 1)`. -/
def get_closeness_from_lidar (dist : ℝ) : ℝ :=
  KVLCC2.clip (1 - Real.log (dist + 1) / Real.log (lidar_range + 1)) 0 1

/-! ## Observation assembly (`_set_state`) -/

/-- `_set_state`: the observation vector, assembled exactly as in the
source: `cmp1 = nu / [7.0, 0.7, 0.004]`, `cmp2 = [r_dot/8e-5,
rud_angle/rud_angle_max]`, `state_path = [ye/Lpp, desired_course/pi]`,
then the closeness of every LiDAR beam.  `ye` and `desired_course` are
the outputs of the external `VFG` guidance function (`HHOS_Fnc.py`, not
under `src/`), passed through unchanged. -/
def set_state (u v r r_dot rud ye desired_course : ℝ)
    (depthq : ℝ → ℝ → ℝ) (head : ℝ) : List ℝ :=
  let cmp1 : List ℝ := [u / 7.0, v / 0.7, r / 0.004]
  let cmp2 : List ℝ := [r_dot / 0.00008, rud / KVLCC2.rud_angle_max]
  let state_OS := cmp1 ++ cmp2
  let state_path : List ℝ := [ye / KVLCC2.Lpp, desired_course / Real.pi]
  let state_LiDAR := (sense_LiDAR depthq head).map get_closeness_from_lidar
  state_OS ++ state_path ++ state_LiDAR

/-- The observation layout as the spec words it:
`[u/7.0, v/0.7, r/0.004, r_dot/8e-5, rudderAngle/rudderAngleMax,
crossTrackError/shipLength, desiredCourse/π, closeness_0 … closeness_N]`,
with the ship length being `Lpp = 320 m`.  Stated independently of
`set_state` to be compared against it. -/
def observation_spec (u v r r_dot rud ye desired_course : ℝ)
    (closeness : List ℝ) : List ℝ :=
  [u / 7.0, v / 0.7, r / 0.004, r_dot / 0.00008, rud / KVLCC2.rud_angle_max,
   ye / KVLCC2.Lpp, desired_course / Real.pi] ++ closeness

end HHOS

/-! ## Claims -/

/-- C1: the claim says the integration consumes the current forcing
sampled at the vessel's position, so a nonzero sampled current speed
makes `X_C`, `Y_C`, `N_C` enter the accelerations.  The code does not:
`_upd_dynamics` hard-codes `args = (0.0, 0.0)` into the integrator call,
so the current-force triple evaluated during integration is `(0, 0, 0)`
for every vessel state, whatever the environment sampled. -/
theorem upd_dynamics_current_forces_vanish (psi u vm : ℝ) :
    KVLCC2.currentForces KVLCC2.upd_dynamics_forcing.1 KVLCC2.upd_dynamics_forcing.2 psi u vm
      = (0, 0, 0) := by
  simp [KVLCC2.currentForces, KVLCC2.upd_dynamics_forcing]

/-- C2: `_set_state` assembles the observation in exactly the fixed
order `[u/7.0, v/0.7, r/0.004, r_dot/8e-5, rud/rud_max, ye/Lpp,
desired_course/π, closeness_0 …]` with exactly these divisors, for every
state. -/
theorem set_state_matches_spec_order (u v r r_dot rud ye dc head : ℝ)
    (depthq : ℝ → ℝ → ℝ) :
    HHOS.set_state u v r r_dot rud ye dc depthq head
      = HHOS.observation_spec u v r r_dot rud ye dc
          ((HHOS.sense_LiDAR depthq head).map HHOS.get_closeness_from_lidar) := by
  simp [HHOS.set_state, HHOS.observation_spec]

/-- C3: `_mmg_dynamics` is total at zero vessel speed: whenever
`u² + vm² = 0` (so `U = 0`), the explicit branch sets the drift angle,
`v_dash` and `r_dash` to `0`; only the other branch divides by `U`. -/
theorem drift_triple_zero_speed (u v r : ℝ)
    (h : u ^ 2 + KVLCC2.vm_from_v_r v r ^ 2 = 0) :
    KVLCC2.driftTriple u (KVLCC2.vm_from_v_r v r) r = (0, 0, 0) := by
  have hU : KVLCC2.U_of u (KVLCC2.vm_from_v_r v r) = 0 := by
    rw [KVLCC2.U_of, h, Real.sqrt_zero]
  simp [KVLCC2.driftTriple, hU]

/-- Witness for C3 at the concrete state `u = v = r = 0`. -/
theorem drift_triple_zero_speed_witness :
    KVLCC2.driftTriple 0 (KVLCC2.vm_from_v_r 0 0) 0 = (0, 0, 0) :=
  drift_triple_zero_speed 0 0 0 (by simp [KVLCC2.vm_from_v_r])

/-- C4 counterexample: on the concrete 3-waypoint path
`(0,0), (100,0), (200,0)`, with the active pair `wp1 = (0,0)` (index 0),
`wp2 = (100,0)` (index 1, not the last waypoint) and the vessel exactly
at `wp2`, the claim predicts an advance; `_update_wps` (with the
spec-modelled `switch_wp`, for which exact equality of the along-track
projection is "not yet passed") leaves both indices unchanged. -/
theorem update_wps_at_wp2_cex :
    ((100 : ℚ) = (⟨0, 0, 0, 1, 100, 0⟩ : HHOS.WPState).wp2_N ∧
     (0 : ℚ) = (⟨0, 0, 0, 1, 100, 0⟩ : HHOS.WPState).wp2_E ∧
     (⟨0, 0, 0, 1, 100, 0⟩ : HHOS.WPState).wp2_idx ≠ ([0, 100, 200] : List ℚ).length - 1) ∧
    (HHOS.update_wps [0, 100, 200] [0, 0, 0] 100 0 ⟨0, 0, 0, 1, 100, 0⟩).wp1_idx = 0 ∧
    (HHOS.update_wps [0, 100, 200] [0, 0, 0] 100 0 ⟨0, 0, 0, 1, 100, 0⟩).wp2_idx = 1 := by
  have h : HHOS.switch_wp 0 0 100 0 100 0 = false := by
    simp only [HHOS.switch_wp]
    norm_num
  refine ⟨⟨rfl, rfl, by decide⟩, ?_, ?_⟩ <;>
    simp [HHOS.update_wps, h]

/-- C4 amended: a vessel position exactly at `wp2` does NOT trigger a
waypoint advance — the pair and indices are left unchanged for every
path, whether or not `wp2` is the last waypoint; advancement requires
the along-track projection to strictly exceed the segment length. -/
theorem update_wps_at_wp2_no_advance (pathN pathE : List ℚ) (s : HHOS.WPState) :
    HHOS.update_wps pathN pathE s.wp2_N s.wp2_E s = s := by
  have hsw : HHOS.switch_wp s.wp1_N s.wp1_E s.wp2_N s.wp2_E s.wp2_N s.wp2_E = false := by
    simp only [HHOS.switch_wp, decide_eq_false_iff_not, not_lt]
    apply le_of_eq
    ring
  simp [HHOS.update_wps, hsw]

/-- C7: `_control` maps action `0` to holding the rudder angle, `1` to
increasing it by the per-second increment times `delta_t`, `2` to
decreasing it, each followed by clipping to
`[-rud_angle_max, rud_angle_max]`; every other action value fails the
assertion (surfaced to the caller as `none`, the rudder angle
unchanged). -/
theorem control_action_semantics (a : ℤ) (x : ℝ) :
    (a = 0 → KVLCC2.control a x
        = some (KVLCC2.clip x (-KVLCC2.rud_angle_max) KVLCC2.rud_angle_max)) ∧
    (a = 1 → KVLCC2.control a x
        = some (KVLCC2.clip (x + KVLCC2.rud_angle_inc) (-KVLCC2.rud_angle_max) KVLCC2.rud_angle_max)) ∧
    (a = 2 → KVLCC2.control a x
        = some (KVLCC2.clip (x - KVLCC2.rud_angle_inc) (-KVLCC2.rud_angle_max) KVLCC2.rud_angle_max)) ∧
    (a ≠ 0 ∧ a ≠ 1 ∧ a ≠ 2 → KVLCC2.control a x = none) := by
  refine ⟨fun h => ?_, fun h => ?_, fun h => ?_, fun h => ?_⟩
  · simp [KVLCC2.control, h]
  · simp [KVLCC2.control, h]
  · simp [KVLCC2.control, h]
  · simp [KVLCC2.control, h.1, h.2.1, h.2.2]

/-- Witness for C7: the invalid action `5` fails with the assertion and
no new rudder angle is produced. -/
theorem control_action_semantics_witness : KVLCC2.control 5 0 = none :=
  (control_action_semantics 5 0).2.2.2 (by decide)

/-- C5: if every depth sample along every beam within sensor range
exceeds the grounding-risk threshold, `_sense_LiDAR` returns the maximum
range for every beam; `_get_closeness_from_lidar` maps each distance `d`
to `clip(1 - ln(d+1)/ln(range+1), 0, 1)`, which is `0` for every such
beam. -/
theorem lidar_deep_water (depthq : ℝ → ℝ → ℝ) (head : ℝ)
    (h : ∀ a dist, dist ∈ HHOS.d_dots_per_beam → HHOS.sense_depth < depthq a dist) :
    HHOS.sense_LiDAR depthq head = List.replicate HHOS.lidar_n_beams HHOS.lidar_range ∧
    (HHOS.sense_LiDAR depthq head).map HHOS.get_closeness_from_lidar
      = List.replicate HHOS.lidar_n_beams 0 ∧
    ∀ dist : ℝ, HHOS.get_closeness_from_lidar dist
      = KVLCC2.clip (1 - Real.log (dist + 1) / Real.log (HHOS.lidar_range + 1)) 0 1 := by
  have hbeam : ∀ ang, HHOS.sense_beam depthq ang = HHOS.lidar_range := by
    intro ang
    unfold HHOS.sense_beam
    have hnone : HHOS.d_dots_per_beam.find?
        (fun dist => depthq ang dist ≤ HHOS.sense_depth) = none := by
      rw [List.find?_eq_none]
      intro x hx
      simpa using not_le.mpr (h ang x hx)
    rw [hnone]
  have hsense : HHOS.sense_LiDAR depthq head
      = List.replicate HHOS.lidar_n_beams HHOS.lidar_range := by
    unfold HHOS.sense_LiDAR
    have hfun : (fun b => HHOS.sense_beam depthq (HHOS.angle_to_2pi (b + head)))
        = fun _ : ℝ => HHOS.lidar_range := funext fun b => hbeam _
    rw [hfun, List.map_const']
    congr 1
  have hzero : HHOS.get_closeness_from_lidar HHOS.lidar_range = 0 := by
    unfold HHOS.get_closeness_from_lidar KVLCC2.clip
    rw [div_self (ne_of_gt (Real.log_pos (by norm_num [HHOS.lidar_range])))]
    norm_num
  refine ⟨hsense, ?_, fun dist => rfl⟩
  rw [hsense, List.map_replicate, hzero]

/-- Witness for C5: a uniform depth field of 16 m (above the 15 m
threshold) yields the maximum range on every beam. -/
theorem lidar_deep_water_witness :
    HHOS.sense_LiDAR (fun _ _ => 16) 0
      = List.replicate HHOS.lidar_n_beams HHOS.lidar_range :=
  (lidar_deep_water (fun _ _ => 16) 0
    (fun _ _ _ => by norm_num [HHOS.sense_depth])).1

/-- `np.clip` keeps any value inside `[lo, hi]` when `lo ≤ hi`. -/
theorem clip_mem_Icc (x lo hi : ℝ) (hlh : lo ≤ hi) :
    lo ≤ KVLCC2.clip x lo hi ∧ KVLCC2.clip x lo hi ≤ hi :=
  ⟨le_min (le_max_right x lo) hlh, min_le_right _ _⟩

/-- `np.clip` is the identity on values already inside `[lo, hi]`. -/
theorem clip_eq_self (x lo hi : ℝ) (h1 : lo ≤ x) (h2 : x ≤ hi) :
    KVLCC2.clip x lo hi = x := by
  unfold KVLCC2.clip
  rw [max_eq_left h1, min_eq_left h2]

/-- The rudder-angle bound is nonnegative. -/
theorem rud_angle_max_nonneg : (0 : ℝ) ≤ KVLCC2.rud_angle_max := by
  unfold KVLCC2.rud_angle_max KVLCC2.dtr
  positivity

/-- Any successful `_control` application lands in
`[-rud_angle_max, rud_angle_max]`, whatever the input angle. -/
theorem control_some_bounds (a : ℤ) (x y : ℝ) (h : KVLCC2.control a x = some y) :
    -KVLCC2.rud_angle_max ≤ y ∧ y ≤ KVLCC2.rud_angle_max := by
  have hlh : -KVLCC2.rud_angle_max ≤ KVLCC2.rud_angle_max :=
    le_trans (neg_nonpos.mpr rud_angle_max_nonneg) rud_angle_max_nonneg
  unfold KVLCC2.control at h
  split_ifs at h <;> (injection h with h; subst h; exact clip_mem_Icc _ _ _ hlh)

/-- A successful `_control` run from a bounded start stays bounded. -/
theorem control_seq_bounds_aux (acts : List ℤ) (x y : ℝ)
    (hx : -KVLCC2.rud_angle_max ≤ x ∧ x ≤ KVLCC2.rud_angle_max)
    (h : KVLCC2.control_seq acts x = some y) :
    -KVLCC2.rud_angle_max ≤ y ∧ y ≤ KVLCC2.rud_angle_max := by
  induction acts generalizing x with
  | nil =>
    unfold KVLCC2.control_seq at h
    injection h with h
    exact h ▸ hx
  | cons a rest ih =>
    unfold KVLCC2.control_seq at h
    rcases Option.bind_eq_some.mp h with ⟨z, hz, hrest⟩
    exact ih z (control_some_bounds a x z hz) hrest

/-- C6: starting from the initial rudder angle `0`, after every finite
sequence of successful `_control` applications the rudder angle lies in
`[-rud_angle_max, rud_angle_max]` (every prefix of a sequence is itself
such a sequence, so every intermediate angle is covered). -/
theorem rudder_angle_bounded (acts : List ℤ) (y : ℝ)
    (h : KVLCC2.control_seq acts 0 = some y) :
    -KVLCC2.rud_angle_max ≤ y ∧ y ≤ KVLCC2.rud_angle_max :=
  control_seq_bounds_aux acts 0 y
    ⟨neg_nonpos.mpr rud_angle_max_nonneg, rud_angle_max_nonneg⟩ h

/-- Witness for C6: the one-step sequence `[0]` from angle `0`. -/
theorem rudder_angle_bounded_witness :
    -KVLCC2.rud_angle_max ≤ (0 : ℝ) ∧ (0 : ℝ) ≤ KVLCC2.rud_angle_max :=
  rudder_angle_bounded [0] 0 (by
    have h1 : max (0 : ℝ) (-KVLCC2.rud_angle_max) = 0 :=
      max_eq_left (neg_nonpos.mpr rud_angle_max_nonneg)
    have h2 : min (0 : ℝ) KVLCC2.rud_angle_max = 0 := min_eq_left rud_angle_max_nonneg
    simp [KVLCC2.control_seq, KVLCC2.control, KVLCC2.clip, h1, h2])

/-- `_control` runs compose over list append. -/
theorem control_seq_append (xs ys : List ℤ) (x : ℝ) :
    KVLCC2.control_seq (xs ++ ys) x
      = (KVLCC2.control_seq xs x).bind (KVLCC2.control_seq ys) := by
  induction xs generalizing x with
  | nil => simp [KVLCC2.control_seq]
  | cons a rest ih =>
    cases h : KVLCC2.control a x <;> simp [KVLCC2.control_seq, h, ih]

/-- Repeated action `1` adds the increment each step when no
intermediate value leaves the open bound interval. -/
theorem control_seq_up (k : ℕ) (x : ℝ)
    (h : ∀ j : ℕ, j ≤ k →
      -KVLCC2.rud_angle_max < x + j * KVLCC2.rud_angle_inc ∧
      x + j * KVLCC2.rud_angle_inc < KVLCC2.rud_angle_max) :
    KVLCC2.control_seq (List.replicate k 1) x
      = some (x + k * KVLCC2.rud_angle_inc) := by
  induction k generalizing x with
  | zero => simp [KVLCC2.control_seq]
  | succ k ih =>
    have h1 := h 1 (by omega)
    have hstep : KVLCC2.control 1 x = some (x + KVLCC2.rud_angle_inc) := by
      unfold KVLCC2.control
      rw [if_neg (by decide), if_pos rfl,
        clip_eq_self _ _ _ (by simpa using h1.1.le) (by simpa using h1.2.le)]
    have h' : ∀ j : ℕ, j ≤ k →
        -KVLCC2.rud_angle_max < (x + KVLCC2.rud_angle_inc) + j * KVLCC2.rud_angle_inc ∧
        (x + KVLCC2.rud_angle_inc) + j * KVLCC2.rud_angle_inc < KVLCC2.rud_angle_max := by
      intro j hj
      have := h (j + 1) (by omega)
      constructor <;> · push_cast at this ⊢; linarith [this.1, this.2]
    rw [List.replicate_succ]
    unfold KVLCC2.control_seq
    rw [hstep, Option.some_bind, ih (x + KVLCC2.rud_angle_inc) h']
    congr 1
    push_cast
    ring

/-- Repeated action `2` undoes the increments one by one when no
intermediate value leaves the open bound interval. -/
theorem control_seq_down (k : ℕ) (x : ℝ)
    (h : ∀ j : ℕ, j ≤ k →
      -KVLCC2.rud_angle_max < x + j * KVLCC2.rud_angle_inc ∧
      x + j * KVLCC2.rud_angle_inc < KVLCC2.rud_angle_max) :
    KVLCC2.control_seq (List.replicate k 2) (x + k * KVLCC2.rud_angle_inc)
      = some x := by
  induction k with
  | zero => simp [KVLCC2.control_seq]
  | succ k ih =>
    have hk := h k (by omega)
    have hstep : KVLCC2.control 2 (x + (k + 1 : ℕ) * KVLCC2.rud_angle_inc)
        = some (x + k * KVLCC2.rud_angle_inc) := by
      unfold KVLCC2.control
      rw [if_neg (by decide), if_neg (by decide), if_pos rfl]
      have harg : x + (k + 1 : ℕ) * KVLCC2.rud_angle_inc - KVLCC2.rud_angle_inc
          = x + k * KVLCC2.rud_angle_inc := by push_cast; ring
      rw [harg, clip_eq_self _ _ _ hk.1.le hk.2.le]
    rw [List.replicate_succ]
    unfold KVLCC2.control_seq
    rw [hstep, Option.some_bind, ih (fun j hj => h j (by omega))]

/-- C9: applying action `1` then action `2`, `k` times each, from any
starting rudder angle such that no intermediate value reaches the clamp
bounds, returns the rudder angle to its original value. -/
theorem rudder_inc_dec_cancel (k : ℕ) (x : ℝ)
    (h : ∀ j : ℕ, j ≤ k →
      -KVLCC2.rud_angle_max < x + j * KVLCC2.rud_angle_inc ∧
      x + j * KVLCC2.rud_angle_inc < KVLCC2.rud_angle_max) :
    KVLCC2.control_seq (List.replicate k 1 ++ List.replicate k 2) x = some x := by
  rw [control_seq_append, control_seq_up k x h, Option.some_bind]
  exact control_seq_down k x h

/-- Witness for C9 at `k = 1` from angle `0`: one increment (to
`π/24 rad`, inside the `π/18 rad` bound) followed by one decrement. -/
theorem rudder_inc_dec_cancel_witness :
    KVLCC2.control_seq (List.replicate 1 1 ++ List.replicate 1 2) 0 = some 0 :=
  rudder_inc_dec_cancel 1 0 (by
    intro j hj
    have hpi := Real.pi_pos
    interval_cases j <;>
      · unfold KVLCC2.rud_angle_max KVLCC2.rud_angle_inc KVLCC2.dtr KVLCC2.delta_t
        constructor <;> · push_cast; nlinarith)

/-! Evaluation of `_mmg_dynamics` at the rest state
`u = v = r = 0`, rudder angle `0`, zero current. -/

theorem rest_vm : KVLCC2.vm_from_v_r 0 0 = 0 := by
  simp [KVLCC2.vm_from_v_r]

theorem rest_U : KVLCC2.U_of 0 0 = 0 := by
  simp [KVLCC2.U_of]

theorem rest_drift : KVLCC2.driftTriple 0 0 0 = (0, 0, 0) := by
  simp [KVLCC2.driftTriple, rest_U]

theorem rest_beta : KVLCC2.beta_of 0 0 0 = 0 := by
  simp [KVLCC2.beta_of, rest_drift]

theorem rest_v_dash : KVLCC2.v_dash_of 0 0 0 = 0 := by
  simp [KVLCC2.v_dash_of, rest_drift]

theorem rest_r_dash : KVLCC2.r_dash_of 0 0 0 = 0 := by
  simp [KVLCC2.r_dash_of, rest_drift]

theorem rest_J : KVLCC2.J_of 0 0 0 KVLCC2.nps_init = 0 := by
  rw [KVLCC2.J_of, if_neg (by norm_num [KVLCC2.nps_init])]
  ring

theorem rest_K_T : KVLCC2.K_T_of 0 0 0 KVLCC2.nps_init = KVLCC2.k_0 := by
  rw [KVLCC2.K_T_of, rest_J]
  ring

theorem rest_beta_R : KVLCC2.beta_R_of 0 0 0 = 0 := by
  rw [KVLCC2.beta_R_of, rest_beta, rest_r_dash]
  ring

theorem rest_v_R : KVLCC2.v_R_of 0 0 0 = 0 := by
  rw [KVLCC2.v_R_of, rest_U]
  ring

theorem rest_u_R_pos : 0 < KVLCC2.u_R_of 0 0 0 KVLCC2.nps_init := by
  rw [KVLCC2.u_R_of, if_pos rest_J]
  have hpi := Real.pi_pos
  rw [Real.sqrt_pos]
  unfold KVLCC2.eta_param KVLCC2.kappa KVLCC2.epsilon KVLCC2.k_0 KVLCC2.nps_init KVLCC2.D_p
  positivity

theorem rest_alpha_R : KVLCC2.alpha_R_of 0 0 0 0 KVLCC2.nps_init = 0 := by
  rw [KVLCC2.alpha_R_of, rest_v_R, KVLCC2.atan2, if_pos rest_u_R_pos]
  simp

theorem rest_F_N : KVLCC2.F_N_of 0 0 0 0 KVLCC2.nps_init = 0 := by
  rw [KVLCC2.F_N_of, rest_alpha_R]
  simp

theorem rest_X_H : KVLCC2.X_H_of 0 0 0 = 0 := by
  rw [KVLCC2.X_H_of, rest_U]
  ring

theorem rest_Y_H : KVLCC2.Y_H_of 0 0 0 = 0 := by
  rw [KVLCC2.Y_H_of, rest_U]
  ring

theorem rest_N_H : KVLCC2.N_H_of 0 0 0 = 0 := by
  rw [KVLCC2.N_H_of, rest_U]
  ring

theorem rest_X_R : KVLCC2.X_R_of 0 0 0 0 KVLCC2.nps_init = 0 := by
  rw [KVLCC2.X_R_of, rest_F_N]
  ring

theorem rest_Y_R : KVLCC2.Y_R_of 0 0 0 0 KVLCC2.nps_init = 0 := by
  rw [KVLCC2.Y_R_of, rest_F_N]
  ring

theorem rest_N_R : KVLCC2.N_R_of 0 0 0 0 KVLCC2.nps_init = 0 := by
  rw [KVLCC2.N_R_of, rest_F_N]
  ring

theorem rest_X_P : KVLCC2.X_P_of 0 0 0 KVLCC2.nps_init
    = (1 - KVLCC2.t_P) * KVLCC2.rho * KVLCC2.k_0 * KVLCC2.nps_init ^ 2 * KVLCC2.D_p ^ 4 := by
  rw [KVLCC2.X_P_of, rest_K_T]

theorem rest_currents (fl_psi psi : ℝ) :
    KVLCC2.currentForces fl_psi (some 0) psi 0 0 = (0, 0, 0) := by
  simp [KVLCC2.currentForces]

theorem rest_d_u (fl_psi psi : ℝ) :
    KVLCC2.d_u_of 0 KVLCC2.nps_init fl_psi (some 0) psi 0 0 0
      = (1 - KVLCC2.t_P) * KVLCC2.rho * KVLCC2.k_0 * KVLCC2.nps_init ^ 2 * KVLCC2.D_p ^ 4
        / (KVLCC2.m + KVLCC2.m_x_v) := by
  rw [KVLCC2.d_u_of]
  simp only [rest_vm, rest_X_H, rest_X_R, rest_X_P, rest_currents]
  ring

theorem rest_d_v (fl_psi psi : ℝ) :
    KVLCC2.d_v_of 0 KVLCC2.nps_init fl_psi (some 0) psi 0 0 0 = 0 := by
  rw [KVLCC2.d_v_of]
  simp only [rest_vm, rest_Y_H, rest_Y_R, rest_N_H, rest_N_R, rest_currents]
  rw [show ((0 : ℝ) + 0 + 0 - (KVLCC2.m + KVLCC2.m_x_v) * 0 * 0
      - KVLCC2.x_G * KVLCC2.m * (0 + 0 + 0) / (KVLCC2.I_zG + KVLCC2.J_z_v + KVLCC2.x_G ^ 2 * KVLCC2.m)
      + KVLCC2.x_G ^ 2 * KVLCC2.m ^ 2 * 0 * 0 / (KVLCC2.I_zG + KVLCC2.J_z_v + KVLCC2.x_G ^ 2 * KVLCC2.m))
      = 0 by ring]
  exact zero_div _

theorem rest_d_r (fl_psi psi : ℝ) :
    KVLCC2.d_r_of 0 KVLCC2.nps_init fl_psi (some 0) psi 0 0 0 = 0 := by
  rw [KVLCC2.d_r_of]
  simp only [rest_vm, rest_N_H, rest_N_R, rest_currents, rest_d_v]
  rw [show ((0 : ℝ) + 0 + 0 - (KVLCC2.x_G * KVLCC2.m * 0 + KVLCC2.x_G * KVLCC2.m * 0 * 0))
      = 0 by ring]
  exact zero_div _

/-- C8: at the rest state `u = v = r = 0` with rudder angle `0` and zero
current forcing, `_mmg_dynamics` yields zero lateral and zero yaw
acceleration, a surge acceleration equal to the propeller thrust term
`(1 - t_P)·ρ·K_T·nps²·D_p⁴` (with `K_T = k_0`, since `J = 0` there)
divided by `m + m_x`, all hull, rudder and current force terms zero, and
a zero pose rate; every component is a real number, hence finite. -/
theorem mmg_dynamics_rest_state (N E psi fl_psi : ℝ) :
    (KVLCC2.mmg_dynamics 0 KVLCC2.nps_init fl_psi (some 0) ⟨N, E, psi, 0, 0, 0⟩).du
      = (1 - KVLCC2.t_P) * KVLCC2.rho * KVLCC2.k_0 * KVLCC2.nps_init ^ 2 * KVLCC2.D_p ^ 4
        / (KVLCC2.m + KVLCC2.m_x_v) ∧
    (KVLCC2.mmg_dynamics 0 KVLCC2.nps_init fl_psi (some 0) ⟨N, E, psi, 0, 0, 0⟩).dv = 0 ∧
    (KVLCC2.mmg_dynamics 0 KVLCC2.nps_init fl_psi (some 0) ⟨N, E, psi, 0, 0, 0⟩).dr = 0 ∧
    (KVLCC2.mmg_dynamics 0 KVLCC2.nps_init fl_psi (some 0) ⟨N, E, psi, 0, 0, 0⟩).dN = 0 ∧
    (KVLCC2.mmg_dynamics 0 KVLCC2.nps_init fl_psi (some 0) ⟨N, E, psi, 0, 0, 0⟩).dE = 0 ∧
    (KVLCC2.mmg_dynamics 0 KVLCC2.nps_init fl_psi (some 0) ⟨N, E, psi, 0, 0, 0⟩).dpsi = 0 ∧
    KVLCC2.X_H_of 0 0 0 = 0 ∧ KVLCC2.Y_H_of 0 0 0 = 0 ∧ KVLCC2.N_H_of 0 0 0 = 0 ∧
    KVLCC2.X_R_of 0 0 0 0 KVLCC2.nps_init = 0 ∧
    KVLCC2.Y_R_of 0 0 0 0 KVLCC2.nps_init = 0 ∧
    KVLCC2.N_R_of 0 0 0 0 KVLCC2.nps_init = 0 ∧
    KVLCC2.currentForces fl_psi (some 0) psi 0 0 = (0, 0, 0) := by
  refine ⟨?_, ?_, ?_, ?_, ?_, ?_, rest_X_H, rest_Y_H, rest_N_H,
    rest_X_R, rest_Y_R, rest_N_R, rest_currents fl_psi psi⟩
  · exact rest_d_u fl_psi psi
  · exact rest_d_v fl_psi psi
  · exact rest_d_r fl_psi psi
  · show Real.cos psi * 0 - Real.sin psi * 0 = 0
    ring
  · show Real.sin psi * 0 + Real.cos psi * 0 = 0
    ring
  · rfl

/-- C10: every invocation of `_update_wps` either leaves the state
unchanged, or increments both waypoint indices together by exactly `1`,
with `wp1` taking `wp2`'s former coordinates and `wp2` the `DesiredPath`
entry at the new `wp2_idx`; the index gap is preserved and neither index
ever decreases. -/
theorem update_wps_gap_invariant (pathN pathE : List ℚ) (aN aE : ℚ) (s : HHOS.WPState) :
    (HHOS.update_wps pathN pathE aN aE s = s ∨
      ((HHOS.update_wps pathN pathE aN aE s).wp1_idx = s.wp1_idx + 1 ∧
       (HHOS.update_wps pathN pathE aN aE s).wp2_idx = s.wp2_idx + 1 ∧
       (HHOS.update_wps pathN pathE aN aE s).wp1_N = s.wp2_N ∧
       (HHOS.update_wps pathN pathE aN aE s).wp1_E = s.wp2_E ∧
       (HHOS.update_wps pathN pathE aN aE s).wp2_N = pathN.getD (s.wp2_idx + 1) 0 ∧
       (HHOS.update_wps pathN pathE aN aE s).wp2_E = pathE.getD (s.wp2_idx + 1) 0)) ∧
    (HHOS.update_wps pathN pathE aN aE s).wp2_idx - (HHOS.update_wps pathN pathE aN aE s).wp1_idx
      = s.wp2_idx - s.wp1_idx ∧
    s.wp1_idx ≤ (HHOS.update_wps pathN pathE aN aE s).wp1_idx ∧
    s.wp2_idx ≤ (HHOS.update_wps pathN pathE aN aE s).wp2_idx := by
  unfold HHOS.update_wps
  split
  · exact ⟨Or.inr ⟨rfl, rfl, rfl, rfl, rfl, rfl⟩, by dsimp only; omega,
      by dsimp only; omega, by dsimp only; omega⟩
  · exact ⟨Or.inl rfl, rfl, le_refl _, le_refl _⟩

end
